import Mathlib

/-
Verification of the "Phase 1 - Machine Translation" notebook material
(a fill-in-the-blank seq2seq exercise plus an OOP tutorial notebook),
shallowly embedded in Lean 4.

Python semantics conventions used throughout:
- a name or attribute that the shipped code never assigns is modelled as an
  `Option` constant equal to `none`; evaluating it goes through `lookupLocal`
  or `lookupAttr`, which return the corresponding Python error;
- fallible code is `Except PyError`-valued;
- Python floats are modelled as exact rationals, Python ints as `Int`/`Nat`;
- a Python instance dictionary is an insertion-ordered association list.
-/

set_option linter.unusedVariables false
set_option linter.constructorNameAsVariable false

/-- Runtime errors of the embedded Python fragments. -/
inductive PyError where
  | nameError (name : String)
  | attributeError (attr : String)
deriving DecidableEq, Repr

/-- Evaluating a local variable name: a name never assigned (modelled as
`none`) raises NameError. -/
def lookupLocal {α : Type} (v : Option α) (name : String) : Except PyError α :=
  match v with
  | some x => Except.ok x
  | none => Except.error (PyError.nameError name)

/-- Evaluating `self.attr`: an attribute never assigned in `__init__`
(modelled as `none`) raises AttributeError. -/
def lookupAttr {α : Type} (v : Option α) (attr : String) : Except PyError α :=
  match v with
  | some x => Except.ok x
  | none => Except.error (PyError.attributeError attr)

/- ### Tokenizers (translation notebook) -/

namespace ShippedTokenize

/-- In the shipped `tokenize_de`, the body is only a TODO comment before
`return tokens`; the local name `tokens` is never assigned. -/
def tokens_de : Option (List String) := none

/-- Same for `tokenize_en`: `tokens` is never assigned. -/
def tokens_en : Option (List String) := none

end ShippedTokenize

/-- Embedding of `tokenize_de(text)` as shipped: the body returns the unbound
local `tokens`. -/
def tokenize_de (text : String) : Except PyError (List String) :=
  lookupLocal ShippedTokenize.tokens_de "tokens"

/-- Embedding of `tokenize_en(text)` as shipped: the body returns the unbound
local `tokens`. -/
def tokenize_en (text : String) : Except PyError (List String) :=
  lookupLocal ShippedTokenize.tokens_en "tokens"

/- ### epoch_time (translation notebook) -/

/-- Python `int()` on a real value: truncation toward zero. -/
def pyInt (q : ℚ) : ℤ := if 0 ≤ q then ⌊q⌋ else ⌈q⌉

/-- Embedding of `epoch_time(start_time, end_time)` with Python floats read as
exact rationals:
`elapsed_time = end_time - start_time`;
`elapsed_mins = int(elapsed_time / 60)`;
`elapsed_secs = elapsed_time - (elapsed_mins * 60)`. -/
def epoch_time (start_time end_time : ℚ) : ℤ × ℚ :=
  let elapsed_time := end_time - start_time
  let elapsed_mins := pyInt (elapsed_time / 60)
  let elapsed_secs := elapsed_time - (elapsed_mins * 60)
  (elapsed_mins, elapsed_secs)

/- ### Adder (OOP notebook) -/

/-- The `Adder` class: `__init__` stores `self.n = n`. -/
structure Adder where
  n : Int

/-- Embedding of `Adder.__call__(self, x)`: returns `self.n + x`; invoking an
`Adder` instance with call syntax dispatches here. -/
def Adder.call (self : Adder) (x : Int) : Int := self.n + x

/-- The transcript's `plus_3 = Adder(3)`. -/
def plus_3 : Adder := Adder.mk 3

/- ### Person (OOP notebook) -/

/-- `setattr(obj, key, v)` on an instance dictionary: update the entry in
place if the key is present (Python dicts keep insertion order), else append
a new entry. -/
def pySetattr : List (String × String) → String → String → List (String × String)
  | [], key, v => [(key, v)]
  | (k, w) :: rest, key, v =>
      if k = key then (k, v) :: rest else (k, w) :: pySetattr rest key v

namespace Person

/-- Embedding of the class function
`Person.set_name(instance_obj, new_name) = setattr(instance_obj, 'name', new_name)`,
acting on the instance dictionary. -/
def set_name (instance_obj : List (String × String)) (new_name : String) :
    List (String × String) :=
  pySetattr instance_obj "name" new_name

/-- The bound method `p.set_name`: the class function with the instance
passed as the first argument. -/
def boundSetName (p : List (String × String)) : String → List (String × String) :=
  fun new_name => set_name p new_name

end Person

/- ### Helper lemmas -/

theorem pySetattr_lookup_self (d : List (String × String)) (k v : String) :
    (pySetattr d k v).lookup k = some v := by
  induction d with
  | nil => simp [pySetattr, List.lookup]
  | cons kv rest ih =>
    obtain ⟨k0, w0⟩ := kv
    by_cases hk : k0 = k
    · subst hk
      simp [pySetattr, List.lookup]
    · have hb : (k == k0) = false := beq_eq_false_iff_ne.mpr (Ne.symm hk)
      simp [pySetattr, hk, List.lookup, hb, ih]

theorem pySetattr_lookup_other (d : List (String × String)) (k v k2 : String)
    (h : k2 ≠ k) : (pySetattr d k v).lookup k2 = d.lookup k2 := by
  have hb : (k2 == k) = false := beq_eq_false_iff_ne.mpr h
  induction d with
  | nil => simp [pySetattr, List.lookup, hb]
  | cons kv rest ih =>
    obtain ⟨k0, w0⟩ := kv
    by_cases hk : k0 = k
    · subst hk
      simp [pySetattr, List.lookup, hb]
    · by_cases hk2 : k0 = k2
      · subst hk2
        simp [pySetattr, hk, List.lookup]
      · have hb2 : (k2 == k0) = false := beq_eq_false_iff_ne.mpr (Ne.symm hk2)
        simp [pySetattr, hk, List.lookup, hb2, ih]

/- ### Claim theorems -/

/-- C5: for every input string, `tokenize_de` and `tokenize_en` fail rather
than return a token list: each body returns the never-assigned local
`tokens`, so every call raises NameError. -/
theorem tokenizers_unbound_tokens (text : String) :
    tokenize_de text = Except.error (PyError.nameError "tokens") ∧
    tokenize_en text = Except.error (PyError.nameError "tokens") :=
  ⟨rfl, rfl⟩

/-- C7: an `Adder` instance is callable: for every `n` and `x`, `Adder(n)`
applied to `x` returns `n + x` via `__call__`, and in particular the
transcript's `plus_3(4) = 7`. -/
theorem adder_callable (n x : Int) :
    (Adder.mk n).call x = n + x ∧ plus_3.call 4 = 7 :=
  ⟨rfl, rfl⟩

/-- C6: the bound-method call `p.set_name(n)` and the unbound class-function
call `Person.set_name(p, n)` are equivalent; each sets exactly the `name`
entry of the instance dictionary (the `name` entry becomes `n`, every other
key is untouched); on an empty instance dictionary the result is
`{name: n}`; and the transcript's two calls give `{name: Alex}` then
`{name: John}`. -/
theorem person_set_name_bound_unbound (p : List (String × String)) (n : String) :
    Person.boundSetName p n = Person.set_name p n ∧
    (Person.set_name p n).lookup "name" = some n ∧
    (∀ k : String, k ≠ "name" → (Person.set_name p n).lookup k = p.lookup k) ∧
    Person.set_name [] n = [("name", n)] ∧
    Person.set_name (Person.set_name [] "Alex") "John" = [("name", "John")] := by
  refine ⟨rfl, pySetattr_lookup_self p "name" n, ?_, rfl, rfl⟩
  intro k hk
  exact pySetattr_lookup_other p "name" n k hk

/-- Witness for C6 at a concrete dictionary: setting `name` leaves the
`age` entry unchanged. -/
theorem person_set_name_bound_unbound_witness :
    (Person.set_name [("age", "30")] "Alex").lookup "age" = some "30" :=
  (person_set_name_bound_unbound [("age", "30")] "Alex").2.2.1 "age" (by decide)

/-- C10: for `start_time ≤ end_time`, in exact rational arithmetic,
`epoch_time` returns `(elapsed_mins, elapsed_secs)` with `elapsed_mins` the
integer part (floor) of `(end_time - start_time) / 60`,
`elapsed_mins * 60 + elapsed_secs` exactly the elapsed time, and
`0 ≤ elapsed_secs < 60`. -/
theorem epoch_time_exact (start_time end_time : ℚ) (h : start_time ≤ end_time) :
    (epoch_time start_time end_time).1 = ⌊(end_time - start_time) / 60⌋ ∧
    ((epoch_time start_time end_time).1 : ℚ) * 60 + (epoch_time start_time end_time).2
      = end_time - start_time ∧
    0 ≤ (epoch_time start_time end_time).2 ∧
    (epoch_time start_time end_time).2 < 60 := by
  have helapsed : (0 : ℚ) ≤ end_time - start_time := by linarith
  have hq : (0 : ℚ) ≤ (end_time - start_time) / 60 := by positivity
  have hfst : (epoch_time start_time end_time).1 = ⌊(end_time - start_time) / 60⌋ := by
    simp [epoch_time, pyInt, hq]
  have hmul : ((end_time - start_time) / 60) * 60 = end_time - start_time := by
    field_simp
  refine ⟨hfst, ?_, ?_, ?_⟩
  · simp [epoch_time]
  · have hle : ((⌊(end_time - start_time) / 60⌋ : ℚ)) ≤ (end_time - start_time) / 60 :=
      Int.floor_le _
    have : ((⌊(end_time - start_time) / 60⌋ : ℚ)) * 60 ≤ end_time - start_time := by
      calc ((⌊(end_time - start_time) / 60⌋ : ℚ)) * 60
          ≤ ((end_time - start_time) / 60) * 60 := by linarith
        _ = end_time - start_time := hmul
    simp [epoch_time, pyInt, hq]
    linarith
  · have hlt : (end_time - start_time) / 60 < (⌊(end_time - start_time) / 60⌋ : ℚ) + 1 :=
      Int.lt_floor_add_one _
    have : end_time - start_time < ((⌊(end_time - start_time) / 60⌋ : ℚ)) * 60 + 60 := by
      calc end_time - start_time = ((end_time - start_time) / 60) * 60 := hmul.symm
        _ < ((⌊(end_time - start_time) / 60⌋ : ℚ) + 1) * 60 := by linarith
        _ = ((⌊(end_time - start_time) / 60⌋ : ℚ)) * 60 + 60 := by ring
    simp [epoch_time, pyInt, hq]
    linarith

/-- Witness for C10 at `start_time = 0`, `end_time = 125`: the exact
reconstruction identity and the upper bound on seconds hold there. -/
theorem epoch_time_exact_witness :
    ((epoch_time 0 125).1 : ℚ) * 60 + (epoch_time 0 125).2 = 125 - 0 ∧
    (epoch_time 0 125).2 < 60 :=
  ⟨(epoch_time_exact 0 125 (by norm_num)).2.1,
   (epoch_time_exact 0 125 (by norm_num)).2.2.2⟩

/- ### The shipped translation model (translation notebook) -/

namespace Shipped

/-- In the shipped hyperparameter cell, `INPUT_DIM = ` is left with an empty
right-hand side, so no value is defined. -/
def INPUT_DIM : Option Nat := none

/-- `OUTPUT_DIM = ` is left with an empty right-hand side. -/
def OUTPUT_DIM : Option Nat := none

/-- `ENC_EMB_DIM = ` is left with an empty right-hand side. -/
def ENC_EMB_DIM : Option Nat := none

/-- `DEC_EMB_DIM = ` is left with an empty right-hand side. -/
def DEC_EMB_DIM : Option Nat := none

/-- `HID_DIM = ` is left with an empty right-hand side. -/
def HID_DIM : Option Nat := none

/-- `N_LAYERS = 2` is assigned. -/
def N_LAYERS : Option Nat := some 2

/-- `DROPOUT = 0.5` is assigned. -/
def DROPOUT : Option ℚ := some (1 / 2)

/-- `nn.Dropout` applied outside training (and in this embedding generally):
the identity on its input. -/
def dropout (x : ℚ) : ℚ := x

/-- In the shipped `Encoder.__init__`, `self.embedding = ` is commented out
under a TODO, so Encoder instances have no `embedding` attribute. -/
def encoderEmbedding : Option (Int → ℚ) := none

/-- In the shipped `Encoder.__init__`, `self.rnn = ` is commented out under a
TODO, so Encoder instances have no `rnn` attribute. -/
def encoderRnn : Option (List ℚ → List ℚ × List ℚ) := none

/-- Embedding of the shipped `Encoder.forward(src)`: embed the source tokens,
apply dropout, run the rnn (which returns `(outputs, hidden)`), and return
only the final hidden state. Both layer attributes are unset, so evaluating
`self.embedding` fails first. -/
def encoderForward (src : List Int) : Except PyError (List ℚ) := do
  let embedding ← lookupAttr encoderEmbedding "embedding"
  let embedded_input := src.map embedding
  let embedded_input := embedded_input.map dropout
  let rnn ← lookupAttr encoderRnn "rnn"
  let res := rnn embedded_input
  pure res.2

/-- In the shipped `Decoder.__init__`, `self.embedding = ` is commented out
under a TODO. -/
def decoderEmbedding : Option (Int → ℚ) := none

/-- In the shipped `Decoder.__init__`, `self.rnn = ` is commented out under a
TODO. -/
def decoderRnn : Option (ℚ × List ℚ → List ℚ × List ℚ) := none

/-- In the shipped `Decoder.forward`, the local `prediction` is only named in
the TODO comment `# prediction = ` and never assigned. -/
def prediction : Option (List (List ℚ)) := none

/-- Embedding of the shipped `Decoder.forward(dec_input, hidden)`: embeds and
drops out the input token, runs the rnn, and returns the unbound local
`prediction` together with the new hidden state. -/
def decoderForward (dec_input : Int) (hidden : List ℚ) :
    Except PyError (List (List ℚ) × List ℚ) := do
  let embedding ← lookupAttr decoderEmbedding "embedding"
  let dec_input_embedded := dropout (embedding dec_input)
  let rnnFn ← lookupAttr decoderRnn "rnn"
  let res := rnnFn (dec_input_embedded, hidden)
  let pred ← lookupLocal prediction "prediction"
  pure (pred, res.2)

/-- In the shipped `Seq2Seq.forward`, `trg_len = ` is commented out under a
TODO, so the name is unbound when the body runs. -/
def trg_len : Option Nat := none

/-- `batch_size = ` is commented out under a TODO. -/
def batch_size : Option Nat := none

/-- `trg_vocab_size = ` is commented out under a TODO. -/
def trg_vocab_size : Option Nat := none

/-- `decoder_input = ` is commented out under a TODO (both before and inside
the decoding loop). -/
def decoder_input : Option Int := none

/-- `torch.zeros(a, b, c)`: an `a × b × c` tensor of zeros. -/
def zeros3 (a b c : Nat) : List (List (List ℚ)) :=
  List.replicate a (List.replicate b (List.replicate c 0))

/-- Embedding of the shipped `Seq2Seq.forward(src, trg)`. The locals
`trg_len`, `batch_size`, `trg_vocab_size` and `decoder_input` are only named
in TODO comments and never assigned; Python evaluates the arguments of the
`torch.zeros` allocation left to right, so every call fails at the unbound
name `trg_len` before anything else runs. -/
def seq2seqForward (src trg : List Int) :
    Except PyError (List (List (List ℚ))) := do
  let len ← lookupLocal trg_len "trg_len"
  let bsz ← lookupLocal batch_size "batch_size"
  let vsz ← lookupLocal trg_vocab_size "trg_vocab_size"
  let outputs := zeros3 len bsz vsz
  let hidden ← encoderForward src
  let dec_in ← lookupLocal decoder_input "decoder_input"
  let res ← (List.range' 1 (len - 1)).foldlM
      (fun (st : List (List (List ℚ)) × List ℚ) step => do
        let (output, hidden) ← decoderForward dec_in st.2
        pure (st.1.set step output, hidden))
      (outputs, hidden)
  pure res.1

end Shipped

/- ### The completed model, per the notebook prose (for C2 and C3) -/

/-- Modelled from the spec: the Encoder module whose `embedding` and `rnn`
layers are left as TODOs in the shipped `__init__`; they are taken here as
abstract parameters. `rnnStep` is the recurrence
h_t = EncoderRNN(e(x_t), h_(t-1)) from the notebook prose, `h0` the initial
hidden state. -/
structure EncoderM (E H : Type) where
  embedding : Int → E
  dropout : E → E
  h0 : H
  rnnStep : E → H → H

/-- `Encoder.forward(src)`: embed and dropout the source tokens, run the RNN
over them, and return only the final hidden state. -/
def EncoderM.forward {E H : Type} (enc : EncoderM E H) (src : List Int) : H :=
  ((src.map enc.embedding).map enc.dropout).foldl (fun h e => enc.rnnStep e h) enc.h0

/-- Modelled from the spec: the Decoder module whose `embedding`, `rnn` and
`out` layers are left as TODOs in the shipped `__init__`; they are abstract
parameters, with `out` the prediction layer over the top hidden state. -/
structure DecoderM (E H O : Type) where
  embedding : Int → E
  dropout : E → E
  rnnStep : E → H → H
  out : H → O

/-- `Decoder.forward(dec_input, hidden)`: one step of decoding: embed and
dropout the input token, advance the RNN hidden state, and return the
prediction from the new hidden state together with that state. -/
def DecoderM.forward {E H O : Type} (dec : DecoderM E H O) (dec_input : Int)
    (hidden : H) : O × H :=
  let dec_input_embedded := dec.dropout (dec.embedding dec_input)
  let hidden := dec.rnnStep dec_input_embedded hidden
  (dec.out hidden, hidden)

/-- Modelled from the spec: the decoding loop of `Seq2Seq.forward` with the
two TODO `decoder_input` assignments completed per the notebook prose
(teacher forcing): at each remaining step it records the pair
(decoder input fed at this step, decoder output), and the next decoder input
is the ground-truth token `trg[step]`, never the model's own prediction.
`fuel` counts the remaining loop iterations, `step` is the current index. -/
def seq2seqGo {E H O : Type} (dec : DecoderM E H O) (trg : List Int) :
    Nat → Nat → Int → H → List (Int × O)
  | 0, _, _, _ => []
  | fuel + 1, step, dec_input, hidden =>
      let (output, hidden2) := DecoderM.forward dec dec_input hidden
      (dec_input, output) :: seq2seqGo dec trg fuel (step + 1) (trg.getD step 0) hidden2

/-- Modelled from the spec: the completed `Seq2Seq.forward(src, trg)`:
`hidden = encoder(src)` is the only use of `src`; the first decoder input is
`trg[0]` (the `<sos>` token); the loop runs steps `1 .. trg_len - 1`. The
result is the trace of (decoder input, decoder output) pairs. -/
def Seq2SeqM.trace {E H O : Type} (enc : EncoderM E H) (dec : DecoderM E H O)
    (src trg : List Int) : List (Int × O) :=
  let hidden := EncoderM.forward enc src
  let dec_input := trg.getD 0 0
  seq2seqGo dec trg (trg.length - 1) 1 dec_input hidden

/-- The outputs of the completed forward pass, one per decoding step. -/
def Seq2SeqM.forward {E H O : Type} (enc : EncoderM E H) (dec : DecoderM E H O)
    (src trg : List Int) : List O :=
  (Seq2SeqM.trace enc dec src trg).map Prod.snd

/-- The decoder inputs fed at steps `1 .. trg_len - 1` of the completed
forward pass. -/
def Seq2SeqM.decoderInputs {E H O : Type} (enc : EncoderM E H)
    (dec : DecoderM E H O) (src trg : List Int) : List Int :=
  (Seq2SeqM.trace enc dec src trg).map Prod.fst

/-- A concrete encoder instance for evaluating the model on examples: tokens
embed to themselves and the RNN state is the last input seen. -/
def encEx : EncoderM Int Int := ⟨id, id, 0, fun e _h => e⟩

/-- A concrete decoder instance for evaluating the model on examples. -/
def decEx : DecoderM Int Int Int := ⟨id, id, (fun e h => e + h), id⟩

/-- The decoding loop performs exactly `fuel` steps. -/
theorem seq2seqGo_length {E H O : Type} (dec : DecoderM E H O) (trg : List Int) :
    ∀ (fuel step : Nat) (d : Int) (h : H),
      (seq2seqGo dec trg fuel step d h).length = fuel := by
  intro fuel
  induction fuel with
  | zero => intro step d h; rfl
  | succ f ih =>
    intro step d h
    simp [seq2seqGo, ih]

/-- The decoder input recorded at position `i` of the loop trace: the initial
input `d` at `i = 0`, and the ground-truth token `trg[step + i - 1]`
afterwards, independently of the decoder function and of the hidden state. -/
theorem seq2seqGo_inputs_get {E H O : Type} (dec : DecoderM E H O) (trg : List Int) :
    ∀ (fuel step : Nat) (d : Int) (h : H) (i : Nat), i < fuel →
      ((seq2seqGo dec trg fuel step d h).map Prod.fst).get? i =
        some (if i = 0 then d else trg.getD (step + i - 1) 0) := by
  intro fuel
  induction fuel with
  | zero => intro step d h i hi; omega
  | succ f ih =>
    intro step d h i hi
    match i with
    | 0 => simp [seq2seqGo]
    | j + 1 =>
      have hj : j < f := by omega
      have := ih (step + 1) (trg.getD step 0)
        (DecoderM.forward dec d h).2 j hj
      simp only [seq2seqGo, List.map_cons, List.get?_cons_succ]
      rw [this]
      by_cases hj0 : j = 0
      · subst hj0
        simp
      · have h1 : ¬ (j + 1 = 0) := by omega
        have h2 : step + 1 + j - 1 = step + (j + 1) - 1 := by omega
        simp [hj0, h1, h2]

/-- C2: in the completed Seq2Seq training forward pass, the input fed to the
decoder at loop step `i + 1` is the ground-truth token `trg[i]` (teacher
forcing), for every decoder, encoder, source and hidden evolution: in
particular the first decoder input (`i = 0`) is the `<sos>` token `trg[0]`,
and every later step receives the ground-truth previous target token, never
the model's own prediction. -/
theorem seq2seq_teacher_forcing {E H O : Type} (enc : EncoderM E H)
    (dec : DecoderM E H O) (src trg : List Int) :
    (Seq2SeqM.decoderInputs enc dec src trg).length = trg.length - 1 ∧
    ∀ i : Nat, i + 1 < trg.length →
      (Seq2SeqM.decoderInputs enc dec src trg).get? i = some (trg.getD i 0) := by
  constructor
  · unfold Seq2SeqM.decoderInputs Seq2SeqM.trace
    rw [List.length_map]
    exact seq2seqGo_length dec trg _ _ _ _
  · intro i hi
    have hlt : i < trg.length - 1 := by omega
    have := seq2seqGo_inputs_get dec trg (trg.length - 1) 1 (trg.getD 0 0)
      (EncoderM.forward enc src) i hlt
    unfold Seq2SeqM.decoderInputs Seq2SeqM.trace
    rw [this]
    by_cases hi0 : i = 0
    · subst hi0
      simp
    · have h2 : 1 + i - 1 = i := by omega
      simp [hi0, h2]

/-- Witness for C2: with concrete encoder and decoder instances and
`trg = [10, 20, 30]`, the decoder input at loop step 2 is the ground-truth
token `trg[1] = 20`. -/
theorem seq2seq_teacher_forcing_witness :
    (Seq2SeqM.decoderInputs encEx decEx [1, 2] [10, 20, 30]).get? 1 = some 20 := by
  have := (seq2seq_teacher_forcing encEx decEx [1, 2] [10, 20, 30]).2 1 (by decide)
  simpa using this

/-- C3: the completed Seq2Seq maps the source to the outputs only through the
fixed-size context returned by the encoder: `src` enters only via
`hidden = encoder(src)` (the RNN final hidden state, used as the initial
hidden state of the first decoder step), so any two sources with equal
encoder hidden states and the same `trg` give equal outputs. -/
theorem seq2seq_context_bottleneck {E H O : Type} (enc : EncoderM E H)
    (dec : DecoderM E H O) (src1 src2 trg : List Int)
    (henc : EncoderM.forward enc src1 = EncoderM.forward enc src2) :
    Seq2SeqM.forward enc dec src1 trg = Seq2SeqM.forward enc dec src2 trg := by
  unfold Seq2SeqM.forward Seq2SeqM.trace
  rw [henc]

/-- Witness for C3: the concrete encoder collapses the distinct sources
`[1, 2]` and `[7, 2]` to the same hidden state, and the forward outputs on
`trg = [10, 20, 30]` coincide. -/
theorem seq2seq_context_bottleneck_witness :
    Seq2SeqM.forward encEx decEx [1, 2] [10, 20, 30] =
      Seq2SeqM.forward encEx decEx [7, 2] [10, 20, 30] :=
  seq2seq_context_bottleneck encEx decEx [1, 2] [7, 2] [10, 20, 30] (by decide)

/-- C1: as shipped, `Seq2Seq.forward` never reaches a runnable state: for
every input pair the call fails with NameError at the unbound `trg_len`
(with `batch_size`, `trg_vocab_size` and `decoder_input` equally unassigned),
and the hyperparameter cell leaves INPUT_DIM, OUTPUT_DIM, ENC_EMB_DIM,
DEC_EMB_DIM and HID_DIM undefined. -/
theorem seq2seq_shipped_never_runs (src trg : List Int) :
    Shipped.seq2seqForward src trg = Except.error (PyError.nameError "trg_len") ∧
    Shipped.INPUT_DIM = none ∧ Shipped.OUTPUT_DIM = none ∧
    Shipped.ENC_EMB_DIM = none ∧ Shipped.DEC_EMB_DIM = none ∧
    Shipped.HID_DIM = none :=
  ⟨rfl, rfl, rfl, rfl, rfl, rfl⟩

/- ### The training method and training loop (translation notebook) -/

/-- The global objects of the translation notebook that appear at the
training-loop call site. -/
inductive NBObj where
  | model
  | trainIterator
  | validIterator
  | adamOptimizer
  | ceCriterion
  | clipValue
deriving DecidableEq, Repr

/-- Observable side-effecting events of the train body, in program order. -/
inductive TrainEv where
  | stepCall (receiver : NBObj)
  | forwardPass
  | criterionApply (receiver : NBObj)
  | backward
  | clipGradNorm
  | zeroGradCall (receiver : NBObj)
deriving DecidableEq, Repr

/-- The events of one iteration of the batch loop in `train`, transcribed from
the body: the statement under the comment `# zero the gradients` is
`optimizer.step()` (not a gradient reset); then the forward pass, the
criterion application, `loss.backward()`, gradient clipping, and
`optimizer.step()` again. No `zero_grad` call appears anywhere. -/
def trainBatchEvents (optimizer criterion : NBObj) : List TrainEv :=
  [TrainEv.stepCall optimizer, TrainEv.forwardPass,
   TrainEv.criterionApply criterion, TrainEv.backward,
   TrainEv.clipGradNorm, TrainEv.stepCall optimizer]

/-- `train(model, iterator, optimizer, criterion, clip)` (positional
parameters in the order of the def): the event trace over `n` batches of the
iterator. -/
def trainEvents (model iterator optimizer criterion clip : NBObj) :
    Nat → List TrainEv
  | 0 => []
  | n + 1 =>
      trainEvents model iterator optimizer criterion clip n ++
        trainBatchEvents optimizer criterion

/-- The call in the training loop, transcribed positionally:
`train(model, train_iterator, criterion, optimizer, CLIP)` — the third
argument is the cross-entropy criterion and the fourth the Adam optimizer,
while train's third parameter is `optimizer` and its fourth `criterion`. -/
def trainingLoopEvents (n : Nat) : List TrainEv :=
  trainEvents NBObj.model NBObj.trainIterator NBObj.ceCriterion
    NBObj.adamOptimizer NBObj.clipValue n

/-- Autograd gradient-buffer accumulation semantics: `backward` adds the
batch gradient to the buffer, a `zero_grad` call resets it, and no other
event changes it; the value counts accumulated backward passes. -/
def gradAccum : Nat → TrainEv → Nat
  | _g, TrainEv.zeroGradCall _ => 0
  | g, TrainEv.backward => g + 1
  | g, _ => g

/-- The gradient buffer after running a trace from a zeroed state. -/
def gradAfter (evs : List TrainEv) : Nat := evs.foldl gradAccum 0

/-- The gradient buffer after a trace continued from state `g`. -/
theorem gradAfter_append (evs1 evs2 : List TrainEv) :
    (evs1 ++ evs2).foldl gradAccum 0 = evs2.foldl gradAccum (evs1.foldl gradAccum 0) :=
  List.foldl_append gradAccum 0 evs1 evs2

/-- C8: in `train`, no statement ever clears accumulated gradients: the trace
contains no `zero_grad` call on any object; the first event of every batch
(the statement under `# zero the gradients`) is `optimizer.step()`;
`optimizer.step()` executes exactly twice per batch; and the gradient buffer
after `n` batches holds the accumulated gradients of all `n` backward
passes. -/
theorem train_never_zeroes_gradients (model iterator optimizer criterion clip : NBObj)
    (n : Nat) :
    (∀ r : NBObj,
      TrainEv.zeroGradCall r ∉ trainEvents model iterator optimizer criterion clip n) ∧
    (trainBatchEvents optimizer criterion).head? = some (TrainEv.stepCall optimizer) ∧
    (trainEvents model iterator optimizer criterion clip n).count
      (TrainEv.stepCall optimizer) = 2 * n ∧
    gradAfter (trainEvents model iterator optimizer criterion clip n) = n := by
  refine ⟨?_, rfl, ?_, ?_⟩
  · intro r
    induction n with
    | zero => simp [trainEvents]
    | succ m ih =>
      simp only [trainEvents, List.mem_append]
      rintro (hmem | hmem)
      · exact ih hmem
      · simp [trainBatchEvents] at hmem
  · induction n with
    | zero => simp [trainEvents]
    | succ m ih =>
      rw [trainEvents, List.count_append, ih]
      simp [trainBatchEvents, List.count_cons]
      ring
  · unfold gradAfter
    induction n with
    | zero => simp [trainEvents]
    | succ m ih =>
      rw [trainEvents, gradAfter_append, ih]
      rfl

/-- C9: because the training loop passes `criterion` and `optimizer` in
swapped positions, inside `train` every `.step()` call in the per-epoch trace
is received by the cross-entropy criterion object, there are `2 * n` of them,
and the Adam optimizer never receives a `.step()` (no parameter update ever
happens). -/
theorem training_loop_steps_criterion (n : Nat) :
    (∀ r : NBObj, TrainEv.stepCall r ∈ trainingLoopEvents n → r = NBObj.ceCriterion) ∧
    TrainEv.stepCall NBObj.adamOptimizer ∉ trainingLoopEvents n ∧
    (trainingLoopEvents n).count (TrainEv.stepCall NBObj.ceCriterion) = 2 * n := by
  have hall : ∀ r : NBObj, TrainEv.stepCall r ∈ trainingLoopEvents n →
      r = NBObj.ceCriterion := by
    intro r
    unfold trainingLoopEvents
    induction n with
    | zero => simp [trainEvents]
    | succ m ih =>
      simp only [trainEvents, List.mem_append]
      rintro (hmem | hmem)
      · exact ih hmem
      · simp [trainBatchEvents] at hmem
        exact hmem
  refine ⟨hall, ?_, ?_⟩
  · intro hmem
    exact NBObj.noConfusion (hall NBObj.adamOptimizer hmem)
  · exact (train_never_zeroes_gradients NBObj.model NBObj.trainIterator
      NBObj.ceCriterion NBObj.adamOptimizer NBObj.clipValue n).2.2.1

/-- Witness for C9 at `n = 1`: the receiver of the first `.step()` call of the
epoch is the cross-entropy criterion object. -/
theorem training_loop_steps_criterion_witness :
    NBObj.ceCriterion = NBObj.ceCriterion ∧
    TrainEv.stepCall NBObj.adamOptimizer ∉ trainingLoopEvents 1 :=
  ⟨(training_loop_steps_criterion 1).1 NBObj.ceCriterion (by decide),
   (training_loop_steps_criterion 1).2.1⟩

/- ### C4: defined behavior does exist in the material -/

/-- C4 counterexample: the claim says there exists no function in the source
whose result on every valid input is a defined, repeatable value; but
`Adder.__call__` is fully defined as shipped, and on the concrete valid input
of the transcript, `Adder(3)(4)` evaluates to the defined value `7` (the
recorded output), refuting the universal statement. -/
theorem adder_has_defined_behavior : (Adder.mk 3).call 4 = 7 := rfl

/-- C4 amended: the model and tokenizer functions of the translation notebook
indeed have no defined behavior as shipped (every call fails on an unbound
name left as a TODO), but the material does contain functions with fully
defined, repeatable input-output behavior on every input: `Adder.__call__`
returns `n + x`, and `epoch_time` always satisfies the exact reconstruction
identity `mins * 60 + secs = end - start`. -/
theorem shipped_definedness_split (text : String) (src trg : List Int)
    (n x : Int) (s e : ℚ) :
    tokenize_de text = Except.error (PyError.nameError "tokens") ∧
    Shipped.seq2seqForward src trg = Except.error (PyError.nameError "trg_len") ∧
    (Adder.mk n).call x = n + x ∧
    ((epoch_time s e).1 : ℚ) * 60 + (epoch_time s e).2 = e - s := by
  refine ⟨rfl, rfl, rfl, ?_⟩
  simp [epoch_time]
